import Mathlib

set_option maxHeartbeats 1000000

/-!
Verification development for the hoon.bot notification scheduler
(src/index.js). The JavaScript source is shallowly embedded below:
JS numbers appearing as timestamps and durations become Int, counters and
indices become Nat, fallible handlers that can throw a TypeError become
Except String, and the ambient randomness and the remote are.na API are
abstracted into explicit environment parameters. Payload bytes are
List Nat (each entry one byte of the Buffer).
-/

/-- Subscriber record, mirroring the object stored at db.users[phoneNumber]
(created in handleBegin and in the /api/signup route). -/
structure User where
  active : Bool
  sendIntervals : List Int
  lessonWeights : List Nat
  messageCount : Nat
  endTime : Option Int
  nextSendTime : Int
  currentIntervalIndex : Nat
deriving Repr, DecidableEq

/-- The subscriber-state invariant claimed by the spec data model:
a non-empty list of positive intervals and an in-range interval index. -/
def UserInvariant (u : User) : Prop :=
  u.sendIntervals ≠ [] ∧ (∀ x ∈ u.sendIntervals, 0 < x) ∧
    u.currentIntervalIndex < u.sendIntervals.length

/-- The static index-to-channel table (src/index.js lines 24-28). -/
def channels : List String :=
  ["hoon-academy-0", "hoon-academy-1", "hoon-academy-2",
   "hoon-academy-3", "hoon-academy-4", "hoon-academy-5",
   "hoon-academy-6", "hoon-academy-7", "hoon-academy-8"]

/-- In JS, indexing past the end of an array yields undefined, which a
template literal renders as the string below. -/
def undefinedStr : String := "undefined"

/-- lessonWeights.map((weight, index) => weight === 1 ? channels[index] : null)
      .filter(channel => channel !== null)   (src/index.js lines 34-36). -/
def activeChannels (lessonWeights : List Nat) : List String :=
  lessonWeights.enum.filterMap fun iw =>
    if iw.2 = 1 then some (channels.getD iw.1 undefinedStr) else none

/-- activeChannels[Math.floor(Math.random() * activeChannels.length)]:
for a non-empty list the random index is some r % length; for an empty list
the index is NaN and the lookup yields undefined (src/index.js line 38). -/
def selectedChannel (lessonWeights : List Nat) (r : Nat) : String :=
  let ac := activeChannels lessonWeights
  if ac.length = 0 then undefinedStr
  else ac.getD (r % ac.length) undefinedStr

/-- The URL requested for a channel (src/index.js line 40). -/
def arenaUrl (c : String) : String :=
  "https://api.are.na/v2/channels/" ++ c ++ "/contents"

/-- One response of the remote are.na API: an ok body carrying the list of
content items (each item an optional content_html payload, absent payloads
fall back to placeholder text), a 404, or any other failing status. -/
inductive ArenaResp where
  | ok (items : List (Option (List Nat)))
  | notFound
  | err (status : Nat)
deriving Repr, DecidableEq

/-- The non-deterministic inputs of one fetch attempt: the two random draws
and the remote response. -/
structure FetchAttemptEnv where
  randChan : Nat
  randItem : Nat
  resp : ArenaResp
deriving Repr

/-- Result of fetchArenaContent: a payload together with the base64 handle
embedded in the content URL (the URL is BASE_URL ++ "/content/" ++ handle),
or the error thrown after exhausting retries. -/
inductive FetchResult where
  | success (payload : List Nat) (urlHandle : List Char)
  | failure
deriving Repr, DecidableEq

/-- Bytes of the placeholder text used when content_html is absent
(src/index.js line 44). -/
def noContentBytes : List Nat := "No content available".data.map Char.toNat

/-- The base64 alphabet used by Buffer.toString('base64'). -/
def b64alphabet : List Char :=
  "ABCDEFGHIJKLMNOPQRSTUVWXYZabcdefghijklmnopqrstuvwxyz0123456789+/".data

def b64char (v : Nat) : Char := b64alphabet.getD v 'A'

/-- Buffer.from(bytes).toString('base64') (src/index.js line 45). -/
def b64encode : List Nat → List Char
  | [] => []
  | [a] => [b64char (a / 4), b64char (a % 4 * 16), '=', '=']
  | [a, b] => [b64char (a / 4), b64char (a % 4 * 16 + b / 16), b64char (b % 16 * 4), '=']
  | a :: b :: c :: rest =>
      b64char (a / 4) :: b64char (a % 4 * 16 + b / 16) ::
        b64char (b % 16 * 4 + c / 64) :: b64char (c % 64) :: b64encode rest

def b64value (c : Char) : Option Nat :=
  if c ∈ b64alphabet then some (b64alphabet.indexOf c) else none

/-- Reassemble whole bytes out of a stream of 6-bit groups; a trailing group
that does not complete a byte is dropped, as Buffer.from(s, 'base64') does. -/
def b64bytes : List Nat → List Nat
  | v1 :: v2 :: v3 :: v4 :: rest =>
      (v1 * 4 + v2 / 16) :: (v2 % 16 * 16 + v3 / 4) :: (v3 % 4 * 64 + v4) :: b64bytes rest
  | [v1, v2, v3] => [v1 * 4 + v2 / 16, v2 % 16 * 16 + v3 / 4]
  | [v1, v2] => [v1 * 4 + v2 / 16]
  | _ => []

/-- Buffer.from(s, 'base64'): characters outside the alphabet (including
padding) are ignored, then bytes are reassembled (src/index.js line 189). -/
def b64decode (s : List Char) : List Nat := b64bytes (s.filterMap b64value)

/-- fetchWithRetry (src/index.js lines 31-58). The attempt at retryCount
fetches the channel URL; an ok body with at least one item succeeds (the
randomly chosen item's content_html, or the placeholder, is returned with
its base64 URL handle); an ok body with no items throws inside the try
(contents.contents[NaN] is undefined) and is caught and retried; a 404
retries; any other status throws at line 53, is caught by the catch at
line 54 and retried. Every failing path retries while retryCount < 10 and
otherwise rethrows. The second component collects the URLs requested, in
order. The fuel argument only bounds the recursion; fetchArenaContent
supplies enough fuel (11) for every reachable retryCount. -/
def fetchGo (lessonWeights : List Nat) (env : Nat → FetchAttemptEnv) :
    Nat → Nat → FetchResult × List String
  | _, 0 => (FetchResult.failure, [])
  | rc, fuel + 1 =>
    let url := arenaUrl (selectedChannel lessonWeights (env rc).randChan)
    match (env rc).resp with
    | ArenaResp.ok [] =>
        if rc < 10 then
          ((fetchGo lessonWeights env (rc + 1) fuel).1,
            url :: (fetchGo lessonWeights env (rc + 1) fuel).2)
        else (FetchResult.failure, [url])
    | ArenaResp.ok (i :: is) =>
        let items := i :: is
        let payload := (items.getD ((env rc).randItem % items.length) none).getD noContentBytes
        (FetchResult.success payload (b64encode payload), [url])
    | ArenaResp.notFound =>
        if rc < 10 then
          ((fetchGo lessonWeights env (rc + 1) fuel).1,
            url :: (fetchGo lessonWeights env (rc + 1) fuel).2)
        else (FetchResult.failure, [url])
    | ArenaResp.err _ =>
        if rc < 10 then
          ((fetchGo lessonWeights env (rc + 1) fuel).1,
            url :: (fetchGo lessonWeights env (rc + 1) fuel).2)
        else (FetchResult.failure, [url])

/-- fetchArenaContent (src/index.js lines 30-61): fetchWithRetry(0, 10). -/
def fetchArenaContent (lessonWeights : List Nat) (env : Nat → FetchAttemptEnv) :
    FetchResult × List String :=
  fetchGo lessonWeights env 0 11

/-- The Express route pattern '/content/:html' binds :html to exactly one
path segment; with default non-strict routing a single trailing slash is
tolerated, anything beyond that does not match (404). -/
def routeParam (rest : List Char) : Option (List Char) :=
  let seg := rest.takeWhile fun c => c ≠ '/'
  let remainder := rest.dropWhile fun c => c ≠ '/'
  if seg = [] then none
  else if remainder = [] ∨ remainder = ['/'] then some seg
  else none

/-- GET /content/:html (src/index.js lines 187-194) applied to the part of
the request path after "/content/": route-match the handle, base64-decode
the bound parameter and send the bytes. -/
def resolveContentHandle (handle : List Char) : Option (List Nat) :=
  (routeParam handle).map b64decode

/-- Value of the longest leading run of decimal digits, none if there is no
digit. -/
def leadingDigits (cs : List Char) : Option Nat :=
  let ds := cs.takeWhile Char.isDigit
  if ds = [] then none
  else some (ds.foldl (fun acc c => acc * 10 + (c.toNat - 48)) 0)

/-- JS parseInt(s) with radix 10: skip leading spaces, optional sign, then
the longest digit prefix; none models NaN. -/
def parseIntJS (s : String) : Option Int :=
  let cs := s.data.dropWhile fun c => c = ' '
  match cs with
  | '-' :: rest => (leadingDigits rest).map fun n => -(n : Int)
  | '+' :: rest => (leadingDigits rest).map fun n => (n : Int)
  | _ => (leadingDigits cs).map fun n => (n : Int)

def beginText : String := "Service started! You\x27ll receive Hoon Academy nuggets hourly."

/-- handleBegin (src/index.js lines 78-94): unconditionally replace the
record with defaults. params[0] missing or empty is falsy, as are a NaN or
zero parse result, so endTime is only set for a nonzero parsed hours. -/
def handleBegin (now : Int) (params : List String) : User × String :=
  let endT : Option Int :=
    match params[0]? with
    | none => none
    | some p =>
        if p = "" then none
        else
          match parseIntJS p with
          | none => none
          | some h => if h = 0 then none else some (now + h * 3600000)
  ({ active := true
     sendIntervals := [3600000]
     lessonWeights := List.replicate 9 1
     messageCount := 0
     endTime := endT
     nextSendTime := now
     currentIntervalIndex := 0 }, beginText)

def stopHoursText : String := "Please specify a valid number of hours."

/-- handleStop (src/index.js lines 96-111). Both mutating paths write a
field of db.users[phoneNumber]; when that record is absent the JS throws
TypeError (modelled as Except.error), while the validation-failure path
returns before touching the record. -/
def handleStop (now : Int) (params : List String) (user : Option User) :
    Except String (Option User × String) :=
  if params[0]? = some "in" ∨ params[0]? = some "for" then
    match (params[1]?).bind parseIntJS with
    | some h =>
        if 0 < h then
          match user with
          | none => Except.error "TypeError"
          | some u =>
              Except.ok (some { u with endTime := some (now + h * 3600000) },
                "Service will stop in " ++ toString h ++ " hours.")
        else Except.ok (user, stopHoursText)
    | none => Except.ok (user, stopHoursText)
  else
    match user with
    | none => Except.error "TypeError"
    | some u =>
        Except.ok (some { u with active := false },
          "Service stopped. Text :begin to start again.")

/-- params.map(p => { const hours = parseInt(p); if (isNaN(hours) || hours < 1
|| hours > 72) throw; return hours * 3600000 }) — none when any entry throws.
Note an empty params list yields some []. -/
def parseSyncIntervals : List String → Option (List Int)
  | [] => some []
  | p :: rest =>
      match parseIntJS p with
      | none => none
      | some h =>
          if h < 1 ∨ 72 < h then none
          else (parseSyncIntervals rest).map fun l => h * 3600000 :: l

def syncErrText : String :=
  "Please provide valid intervals between 1-72 hours, e.g., \x27:sync 1 2 4\x27"

/-- handleSync (src/index.js lines 113-130). The whole body sits in a
try/catch, so the TypeError raised when the record is absent is caught and
answered with the validation text: this handler never crashes. -/
def handleSync (params : List String) (user : Option User) : Option User × String :=
  match parseSyncIntervals params with
  | none => (user, syncErrText)
  | some intervals =>
      match user with
      | none => (user, syncErrText)
      | some u =>
          (some { u with sendIntervals := intervals, currentIntervalIndex := 0 },
            "Messages will now be sent with intervals: " ++
              String.intercalate ", " params ++ " hours")

def slowRangeText : String := "Please specify a number between 0 and 30."

/-- handleSlow (src/index.js lines 132-143): multiply every interval by
(1 + factor). The mutation dereferences the record with no try/catch, so an
absent record throws TypeError. -/
def handleSlow (params : List String) (user : Option User) :
    Except String (Option User × String) :=
  match (params[0]?).bind parseIntJS with
  | some f =>
      if 0 ≤ f ∧ f ≤ 30 then
        match user with
        | none => Except.error "TypeError"
        | some u =>
            Except.ok
              (some { u with sendIntervals := u.sendIntervals.map fun x => x * (1 + f) },
                "Message intervals have been increased by " ++ toString f ++ "x.")
      else Except.ok (user, slowRangeText)
  | none => Except.ok (user, slowRangeText)

/-- Validated lesson numbers (0-8), none when any entry throws. -/
def parseLessonNums : List String → Option (List Nat)
  | [] => some []
  | p :: rest =>
      match parseIntJS p with
      | none => none
      | some n =>
          if n < 0 ∨ 8 < n then none
          else (parseLessonNums rest).map fun l => n.toNat :: l

/-- Array(9).fill(0) then weights[lessonNum] = 1 for each selection. -/
def setWeights (sel : List Nat) : List Nat :=
  sel.foldl (fun ws i => ws.set i 1) (List.replicate 9 0)

/-- weights.map((w, i) => w === 1 ? i : null).filter(i => i !== null),
also used by the status route (src/index.js lines 162, 302-304). -/
def activeLessons (ws : List Nat) : List Nat :=
  ws.enum.filterMap fun iw => if iw.2 = 1 then some iw.1 else none

def lessonsErrText : String :=
  "Please provide valid lesson numbers between 0-8, e.g., \x27:lessons 1\x27 or \x27:lessons 1 2 3\x27"

/-- handleLessons (src/index.js lines 145-167). As in handleSync the body is
wrapped in try/catch, so an absent record answers with the validation text
instead of crashing. -/
def handleLessons (params : List String) (user : Option User) : Option User × String :=
  match parseLessonNums params with
  | none => (user, lessonsErrText)
  | some sel =>
      let ws := setWeights sel
      match user with
      | none => (user, lessonsErrText)
      | some u =>
          (some { u with lessonWeights := ws },
            "Now sending content from lessons: " ++
              String.intercalate ", " ((activeLessons ws).map toString))

/-- validatePhoneNumber middleware (src/index.js lines 200-210): reads
phoneNumber from req.body and requires a plus sign followed by digits. On a
GET request the body is empty, so the field is absent (none). -/
def validPhone (bodyPhone : Option String) : Bool :=
  match bodyPhone with
  | none => false
  | some p =>
      match p.data with
      | '+' :: rest => !rest.isEmpty && rest.all Char.isDigit
      | _ => false

/-- Response of GET /api/status/:phoneNumber (src/index.js lines 285-313). -/
inductive StatusResp where
  | badRequest
  | notFound
  | okStatus (active : Bool) (messageCount : Nat) (nextMessageIn : Int)
      (activeLessonList : List Nat)
deriving Repr, DecidableEq

/-- The status route: the validatePhoneNumber middleware gates it on the
request body, then the handler looks up req.params.phoneNumber. -/
def statusRoute (bodyPhone : Option String) (user : Option User) (now : Int) :
    StatusResp :=
  if validPhone bodyPhone = false then StatusResp.badRequest
  else
    match user with
    | none => StatusResp.notFound
    | some u =>
        StatusResp.okStatus u.active u.messageCount (max 0 (u.nextSendTime - now))
          (activeLessons u.lessonWeights)

def lowerChar (c : Char) : Char :=
  if 'A' ≤ c ∧ c ≤ 'Z' then Char.ofNat (c.toNat + 32) else c

/-- message.toLowerCase(), restricted to ASCII which covers every message
the handler compares against. -/
def lowerStr (s : String) : String := String.mk (s.data.map lowerChar)

def unknownCmdText : String := "Unknown command. Text :help for available commands."

/-- HELP_MESSAGE (src/index.js lines 169-184); the literal text is a static
constant no claim inspects, abbreviated here to its first line. -/
def helpMessage : String := "Available commands: begin stop sync slow lessons help"

/-- The "yes" branch of the /sms endpoint: double every interval. -/
def yesApply (u : User) : User :=
  { u with sendIntervals := u.sendIntervals.map fun x => x * 2 }

def reducedText : String := "Message frequency has been reduced by half."
def continueText : String := "Continuing with current frequency."

/-- JS String.prototype.split(' '): split on every single space, keeping
empty fields; the empty string splits to [""]. The first argument is the
remaining input, the second the (reversed) characters of the current field. -/
def jsSplitAux : List Char → List Char → List String
  | [], cur => [String.mk cur.reverse]
  | c :: rest, cur =>
      if c = ' ' then String.mk cur.reverse :: jsSplitAux rest []
      else jsSplitAux rest (c :: cur)

/-- POST /sms (src/index.js lines 319-370) for one inbound message against
the record stored for the sender. A lowercased "yes"/"no" is handled first:
db.users[phoneNumber]?.messageCount >= 100 is false for an absent record
(optional chaining) and below threshold, in which case no twiml message is
queued at all (reply none). Otherwise a leading colon selects a command
handler (whose TypeError, when uncaught inside the handler, escapes the
route: Except.error), and everything else is the unknown-command reply. -/
def smsHandler (now : Int) (message : String) (user : Option User) :
    Except String (Option User × Option String) :=
  if lowerStr message = "yes" ∨ lowerStr message = "no" then
    match user with
    | some u =>
        if 100 ≤ u.messageCount then
          if lowerStr message = "yes" then
            Except.ok (some (yesApply u), some reducedText)
          else Except.ok (user, some continueText)
        else Except.ok (user, none)
    | none => Except.ok (user, none)
  else
    match message.data with
    | ':' :: rest =>
        match jsSplitAux rest [] with
        | [] => Except.ok (user, some unknownCmdText)
        | cmd :: params =>
            if cmd = "begin" then
              Except.ok (some (handleBegin now params).1, some (handleBegin now params).2)
            else if cmd = "stop" then
              (handleStop now params user).map fun r => (r.1, some r.2)
            else if cmd = "sync" then
              Except.ok ((handleSync params user).1, some (handleSync params user).2)
            else if cmd = "slow" then
              (handleSlow params user).map fun r => (r.1, some r.2)
            else if cmd = "lessons" then
              Except.ok ((handleLessons params user).1, some (handleLessons params user).2)
            else if cmd = "help" then Except.ok (user, some helpMessage)
            else Except.ok (user, some unknownCmdText)
    | _ => Except.ok (user, some unknownCmdText)

/-- Messages sent to one subscriber during one tick: the content nugget
(carrying the URL handle) and the one-time slow-down prompt. -/
inductive Msg where
  | nugget (urlHandle : List Char)
  | prompt
deriving Repr, DecidableEq

/-- Per-subscriber external outcomes during one tick: the content fetch
result and whether the two Twilio sends succeed. -/
structure TickEnv where
  fetch : FetchResult
  sendOk : Bool
  promptOk : Bool
deriving Repr

/-- user.endTime && now > user.endTime (src/index.js line 378). -/
def expired (now : Int) (u : User) : Bool :=
  match u.endTime with
  | some e => e < now
  | none => false

/-- The body of the per-subscriber loop of sendScheduledMessages
(src/index.js lines 377-409). The try/catch around the fetch and sends means
a failure leaves the record as it was; on success the interval at the
pre-advance index is consumed, the index advances cyclically, the counter
increments, and reaching exactly 100 queues the one-time prompt (whose own
send failure is caught after the state was already mutated, so it changes
nothing). Returns the updated record and the messages sent. -/
def stepUser (now : Int) (env : TickEnv) (u : User) : User × List Msg :=
  if u.active = false ∨ expired now u = true then
    ({ u with active := false }, [])
  else if u.nextSendTime ≤ now then
    match env.fetch with
    | FetchResult.failure => (u, [])
    | FetchResult.success _ handle =>
        if env.sendOk then
          let interval := u.sendIntervals.getD u.currentIntervalIndex 0
          let u2 := { u with
            currentIntervalIndex := (u.currentIntervalIndex + 1) % u.sendIntervals.length
            nextSendTime := now + interval
            messageCount := u.messageCount + 1 }
          (u2, Msg.nugget handle :: (if u2.messageCount = 100 then [Msg.prompt] else []))
        else (u, [])
  else (u, [])

/-- One whole dispatch tick over the user table (Object.entries order):
every subscriber is processed with its own environment, then the table is
written back once. -/
def tickUsers (now : Int) (env : String → TickEnv) (users : List (String × User)) :
    List (String × User) :=
  users.map fun p => (p.1, (stepUser now (env p.1) p.2).1)

/-- A tick environment in which the fetch and both sends succeed. -/
def okEnv : TickEnv :=
  { fetch := FetchResult.success [] [], sendOk := true, promptOk := true }

/-- One successful dispatch fired exactly when the subscriber is due. -/
def dispatchAt (u : User) : User := (stepUser u.nextSendTime okEnv u).1

/-- The messages sent by that dispatch. -/
def dispatchMsgs (u : User) : List Msg := (stepUser u.nextSendTime okEnv u).2

/-! Concrete fixtures used by counterexamples and witnesses. -/

/-- The weight vector produced by a bare `:lessons` command. -/
def zeroWeights : List Nat := List.replicate 9 0

/-- The weight vector of a fresh subscriber. -/
def onesWeights : List Nat := List.replicate 9 1

/-- An environment in which the remote API answers 404 to every request,
as api.are.na does for the nonexistent channel "undefined". -/
def failEnv : Nat → FetchAttemptEnv := fun _ => ⟨0, 0, ArenaResp.notFound⟩

/-- An environment delivering one item whose content_html is the bytes of
"ab?" on the first request. -/
def env7 : Nat → FetchAttemptEnv := fun _ => ⟨0, 0, ArenaResp.ok [some [97, 98, 63]]⟩

/-- A tick in which the content fetch threw after exhausting retries. -/
def failTick : TickEnv := { fetch := FetchResult.failure, sendOk := true, promptOk := true }

/-- The subscriber created by `:begin` at time 0. -/
def beginUser : User := (handleBegin 0 []).1

/-- beginUser after 99 successful sends. -/
def user99 : User := { beginUser with messageCount := 99 }

/-- beginUser after 100 successful sends. -/
def hundredUser : User := { beginUser with messageCount := 100 }

/-- beginUser after `:lessons 1 2`. -/
def lessonsUser : User := { beginUser with lessonWeights := [0, 1, 1, 0, 0, 0, 0, 0, 0] }

/-- beginUser after `:sync 1 2 4`. -/
def syncUser : User :=
  { active := true
    sendIntervals := [3600000, 7200000, 14400000]
    lessonWeights := List.replicate 9 1
    messageCount := 0
    endTime := none
    nextSendTime := 0
    currentIntervalIndex := 0 }

/-- A response on which the fetch attempt cannot succeed: a failing status,
a 404, or an ok body with no items (whose random item lookup throws). -/
def respFails : ArenaResp → Prop
  | ArenaResp.ok items => items = []
  | ArenaResp.notFound => True
  | ArenaResp.err _ => True

/-! Helper lemmas. -/

lemma activeChannels_aux (ws : List Nat) (hw : ∀ x ∈ ws, x ≠ 1) :
    ∀ n : Nat, (List.enumFrom n ws).filterMap
      (fun iw => if iw.2 = 1 then some (channels.getD iw.1 undefinedStr) else none) = [] := by
  induction ws with
  | nil => intro n; rfl
  | cons a t ih =>
      intro n
      have ha : a ≠ 1 := hw a (List.mem_cons_self a t)
      have ht := ih (fun x hx => hw x (List.mem_cons_of_mem a hx)) (n + 1)
      have hfa : (fun iw => if iw.2 = 1 then some (channels.getD iw.1 undefinedStr) else none)
          ((n, a)) = none := by simp [ha]
      show List.filterMap _ ((n, a) :: List.enumFrom (n + 1) t) = []
      simp only [List.filterMap_cons, hfa]
      exact ht

lemma activeChannels_eq_nil (ws : List Nat) (hw : ∀ x ∈ ws, x ≠ 1) :
    activeChannels ws = [] := by
  have h := activeChannels_aux ws hw 0
  simpa [activeChannels, List.enum] using h

lemma selectedChannel_undefined (ws : List Nat) (r : Nat)
    (h : activeChannels ws = []) : selectedChannel ws r = undefinedStr := by
  simp [selectedChannel, h]

/-- One-step unfolding of fetchGo at positive fuel. -/
lemma fetchGo_step (ws : List Nat) (env : Nat → FetchAttemptEnv) (rc fuel : Nat) :
    fetchGo ws env rc (fuel + 1) =
      match (env rc).resp with
      | ArenaResp.ok [] =>
          if rc < 10 then
            ((fetchGo ws env (rc + 1) fuel).1,
              arenaUrl (selectedChannel ws (env rc).randChan) ::
                (fetchGo ws env (rc + 1) fuel).2)
          else (FetchResult.failure, [arenaUrl (selectedChannel ws (env rc).randChan)])
      | ArenaResp.ok (i :: is) =>
          (FetchResult.success
              (((i :: is).getD ((env rc).randItem % (i :: is).length) none).getD noContentBytes)
              (b64encode
                (((i :: is).getD ((env rc).randItem % (i :: is).length) none).getD noContentBytes)),
            [arenaUrl (selectedChannel ws (env rc).randChan)])
      | ArenaResp.notFound =>
          if rc < 10 then
            ((fetchGo ws env (rc + 1) fuel).1,
              arenaUrl (selectedChannel ws (env rc).randChan) ::
                (fetchGo ws env (rc + 1) fuel).2)
          else (FetchResult.failure, [arenaUrl (selectedChannel ws (env rc).randChan)])
      | ArenaResp.err _ =>
          if rc < 10 then
            ((fetchGo ws env (rc + 1) fuel).1,
              arenaUrl (selectedChannel ws (env rc).randChan) ::
                (fetchGo ws env (rc + 1) fuel).2)
          else (FetchResult.failure, [arenaUrl (selectedChannel ws (env rc).randChan)]) := rfl

lemma fetchGo_fail (ws : List Nat) (env : Nat → FetchAttemptEnv)
    (hac : activeChannels ws = []) (hf : ∀ k, respFails (env k).resp) :
    ∀ (fuel rc : Nat), rc + fuel = 11 → 1 ≤ fuel →
      fetchGo ws env rc fuel =
        (FetchResult.failure, List.replicate fuel (arenaUrl undefinedStr)) := by
  intro fuel
  induction fuel with
  | zero => intro rc _ h1; omega
  | succ n ih =>
      intro rc hsum _
      have hsel : selectedChannel ws (env rc).randChan = undefinedStr :=
        selectedChannel_undefined ws _ hac
      have hfc := hf rc
      rw [fetchGo_step, hsel]
      have hbranch :
          (if rc < 10 then
            ((fetchGo ws env (rc + 1) n).1,
              arenaUrl undefinedStr :: (fetchGo ws env (rc + 1) n).2)
          else (FetchResult.failure, [arenaUrl undefinedStr])) =
          (FetchResult.failure, List.replicate (n + 1) (arenaUrl undefinedStr)) := by
        rcases n with _ | m
        · have hrc : ¬ rc < 10 := by omega
          rw [if_neg hrc]
          rfl
        · have hrc : rc < 10 := by omega
          rw [if_pos hrc, ih (rc + 1) (by omega) (by omega)]
          rfl
      rcases hresp : (env rc).resp with items | _ | s
      · rw [hresp] at hfc
        simp only [respFails] at hfc
        subst hfc
        simpa using hbranch
      · simpa using hbranch
      · simpa using hbranch

lemma stepUser_no_fetch_no_msgs (now : Int) (e : TickEnv) (u : User)
    (hf : e.fetch = FetchResult.failure) : (stepUser now e u).2 = [] := by
  simp only [stepUser, hf]
  split
  · rfl
  · split
    · rfl
    · rfl

lemma stepUser_success (now : Int) (env : TickEnv) (u : User)
    (p : List Nat) (h : List Char)
    (ha : u.active = true) (hex : expired now u = false) (hdue : u.nextSendTime ≤ now)
    (hf : env.fetch = FetchResult.success p h) (hs : env.sendOk = true) :
    stepUser now env u =
      ({ u with
          currentIntervalIndex := (u.currentIntervalIndex + 1) % u.sendIntervals.length
          nextSendTime := now + u.sendIntervals.getD u.currentIntervalIndex 0
          messageCount := u.messageCount + 1 },
        Msg.nugget h :: (if u.messageCount + 1 = 100 then [Msg.prompt] else [])) := by
  simp [stepUser, ha, hex, hdue, hf, hs]

lemma stepUser_fail (now : Int) (e : TickEnv) (u : User)
    (ha : u.active = true) (hex : expired now u = false) (hdue : u.nextSendTime ≤ now)
    (hfail : e.fetch = FetchResult.failure ∨ e.sendOk = false) :
    stepUser now e u = (u, []) := by
  rcases hfail with hf | hs
  · simp [stepUser, ha, hex, hdue, hf]
  · cases hfe : e.fetch with
    | failure => simp [stepUser, ha, hex, hdue, hfe]
    | success p h => simp [stepUser, ha, hex, hdue, hfe, hs]

lemma dispatchAt_run (u : User) (ha : u.active = true) (he : u.endTime = none)
    (hi : u.currentIntervalIndex < u.sendIntervals.length) :
    ∀ j : Nat,
      (dispatchAt^[j] u).active = true ∧
      (dispatchAt^[j] u).endTime = none ∧
      (dispatchAt^[j] u).sendIntervals = u.sendIntervals ∧
      (dispatchAt^[j] u).messageCount = u.messageCount + j ∧
      (dispatchAt^[j] u).currentIntervalIndex =
        (u.currentIntervalIndex + j) % u.sendIntervals.length := by
  intro j
  induction j with
  | zero =>
      refine ⟨ha, he, rfl, rfl, ?_⟩
      simpa using (Nat.mod_eq_of_lt hi).symm
  | succ n ih =>
      obtain ⟨h1, h2, h3, h4, h5⟩ := ih
      rw [Function.iterate_succ_apply']
      have hstep := stepUser_success (dispatchAt^[n] u).nextSendTime okEnv
        (dispatchAt^[n] u) [] [] h1 (by simp [expired, h2]) (le_refl _) rfl rfl
      have hd : dispatchAt (dispatchAt^[n] u) =
          (stepUser (dispatchAt^[n] u).nextSendTime okEnv (dispatchAt^[n] u)).1 := rfl
      rw [hd, hstep]
      refine ⟨h1, h2, h3, ?_, ?_⟩
      · simp [h4, Nat.add_assoc]
      · simp [h3, h5, Nat.mod_add_mod, Nat.add_assoc]

lemma yesApply_iter (u : User) :
    ∀ n : Nat, (yesApply^[n] u).sendIntervals = u.sendIntervals.map fun x => x * 2 ^ n := by
  intro n
  induction n with
  | zero => simp
  | succ m ih =>
      rw [Function.iterate_succ_apply']
      show (yesApply (yesApply^[m] u)).sendIntervals = _
      simp [yesApply, ih, List.map_map, pow_succ, Function.comp, mul_assoc]

/-! Claim theorems. -/

/-- C1 counterexample: for an all-zero weight vector the content fetch does
not fail before any remote request is made: eleven remote requests are
issued, the first of them to the undefined-channel URL, before the fetch
fails (here under the real API behaviour of answering 404 to the
nonexistent channel "undefined"). -/
theorem c1_counterexample :
    (fetchArenaContent zeroWeights failEnv).2.length = 11 ∧
    (fetchArenaContent zeroWeights failEnv).2.head? = some (arenaUrl undefinedStr) ∧
    (fetchArenaContent zeroWeights failEnv).1 = FetchResult.failure :=
  ⟨rfl, rfl, rfl⟩

/-- C1 (amended): for every subscriber whose lessonWeights vector is
all-zero, the content fetch is not skipped: all 11 attempts request the
channel-"undefined" URL, and since every response to that URL fails, the
fetch throws after exhausting retries; the dispatch loop catches the error,
so no message is sent to that subscriber and the tick does not crash. -/
theorem c1_all_zero_fetch (ws : List Nat) (env : Nat → FetchAttemptEnv)
    (now : Int) (u : User) (e : TickEnv)
    (hw : ∀ x ∈ ws, x ≠ 1) (hf : ∀ k, respFails (env k).resp)
    (he : e.fetch = FetchResult.failure) :
    (fetchArenaContent ws env).1 = FetchResult.failure ∧
    (fetchArenaContent ws env).2 = List.replicate 11 (arenaUrl undefinedStr) ∧
    (stepUser now e u).2 = [] := by
  have hac := activeChannels_eq_nil ws hw
  have hmain := fetchGo_fail ws env hac hf 11 0 rfl (by omega)
  refine ⟨?_, ?_, stepUser_no_fetch_no_msgs now e u he⟩
  · show (fetchGo ws env 0 11).1 = _
    rw [hmain]
  · show (fetchGo ws env 0 11).2 = _
    rw [hmain]

/-- Witness for c1_all_zero_fetch at the concrete all-zero subscriber. -/
theorem c1_all_zero_fetch_witness :
    (fetchArenaContent zeroWeights failEnv).1 = FetchResult.failure ∧
    (fetchArenaContent zeroWeights failEnv).2 = List.replicate 11 (arenaUrl undefinedStr) ∧
    (stepUser 0 failTick beginUser).2 = [] :=
  c1_all_zero_fetch zeroWeights failEnv 0 beginUser failTick
    (by decide) (fun _ => True.intro) rfl

/-- C2: after a valid `:sync` the record holds exactly the parsed interval
list with index 0; each successful dispatch sets nextSendTime to now plus
the interval at the pre-advance index and then advances the index to
(i+1) mod len; iterating successful dispatches from index 0 consumes the
interval at index j mod len on the j-th dispatch — the cyclic order
a, b, c, a, b, c, … -/
theorem c2_sync_cyclic_consumption (w v u : User) (params : List String)
    (ints : List Int) (now : Int) (j : Nat)
    (hp : parseSyncIntervals params = some ints)
    (hva : v.active = true) (hvx : expired now v = false) (hvd : v.nextSendTime ≤ now)
    (ha : u.active = true) (he : u.endTime = none)
    (hL : u.sendIntervals ≠ []) (h0 : u.currentIntervalIndex = 0) :
    (handleSync params (some w)).1 =
        some { w with sendIntervals := ints, currentIntervalIndex := 0 } ∧
    (stepUser now okEnv v).1.nextSendTime =
        now + v.sendIntervals.getD v.currentIntervalIndex 0 ∧
    (stepUser now okEnv v).1.currentIntervalIndex =
        (v.currentIntervalIndex + 1) % v.sendIntervals.length ∧
    (dispatchAt^[j] u).sendIntervals = u.sendIntervals ∧
    (dispatchAt^[j] u).currentIntervalIndex = j % u.sendIntervals.length ∧
    (dispatchAt^[j + 1] u).nextSendTime =
      (dispatchAt^[j] u).nextSendTime +
        u.sendIntervals.getD (j % u.sendIntervals.length) 0 := by
  have hi : u.currentIntervalIndex < u.sendIntervals.length := by
    rw [h0]
    exact List.length_pos.mpr hL
  obtain ⟨hj1, hj2, hj3, hj4, hj5⟩ := dispatchAt_run u ha he hi j
  have hvs := stepUser_success now okEnv v [] [] hva hvx hvd rfl rfl
  refine ⟨by simp [handleSync, hp], by rw [hvs], by rw [hvs], hj3, ?_, ?_⟩
  · rw [hj5, h0, Nat.zero_add]
  · rw [Function.iterate_succ_apply']
    have hstep := stepUser_success (dispatchAt^[j] u).nextSendTime okEnv
      (dispatchAt^[j] u) [] [] hj1 (by simp [expired, hj2]) (le_refl _) rfl rfl
    have hd : dispatchAt (dispatchAt^[j] u) =
        (stepUser (dispatchAt^[j] u).nextSendTime okEnv (dispatchAt^[j] u)).1 := rfl
    rw [hd, hstep]
    simp [hj3, hj5, h0]

/-- Witness for c2_sync_cyclic_consumption: `:sync 1 2 4` then seven
successful dispatches (more than two full cycles). -/
theorem c2_sync_cyclic_consumption_witness :
    (handleSync ["1", "2", "4"] (some beginUser)).1 =
        some { beginUser with
          sendIntervals := [3600000, 7200000, 14400000],
          currentIntervalIndex := 0 } ∧
    (stepUser 0 okEnv syncUser).1.nextSendTime =
        0 + syncUser.sendIntervals.getD syncUser.currentIntervalIndex 0 ∧
    (stepUser 0 okEnv syncUser).1.currentIntervalIndex =
        (syncUser.currentIntervalIndex + 1) % syncUser.sendIntervals.length ∧
    (dispatchAt^[7] syncUser).sendIntervals = syncUser.sendIntervals ∧
    (dispatchAt^[7] syncUser).currentIntervalIndex = 7 % syncUser.sendIntervals.length ∧
    (dispatchAt^[7 + 1] syncUser).nextSendTime =
      (dispatchAt^[7] syncUser).nextSendTime +
        syncUser.sendIntervals.getD (7 % syncUser.sendIntervals.length) 0 :=
  c2_sync_cyclic_consumption beginUser syncUser syncUser ["1", "2", "4"]
    [3600000, 7200000, 14400000] 0 7 rfl rfl rfl (by decide) rfl rfl (by decide) rfl

/-- C3 evaluated at the failing inputs: for an identity with no record,
`:stop` and `:slow 2` throw TypeError — no reply text is produced and the
rejection escapes the /sms route — while `:sync 1` and `:lessons 1` survive
only because their try/catch converts the TypeError into the
validation-failure text, which neither creates defaults nor reports the
identity as not found. -/
theorem c3_unknown_identity_crash :
    handleStop 0 [] none = Except.error ("TypeError") ∧
    handleSlow ["2"] none = Except.error ("TypeError") ∧
    smsHandler 0 (":stop") none = Except.error ("TypeError") ∧
    smsHandler 0 (":slow 2") none = Except.error ("TypeError") ∧
    handleSync ["1"] none = (none, syncErrText) ∧
    handleLessons ["1"] none = (none, lessonsErrText) :=
  ⟨rfl, rfl, rfl, rfl, rfl, rfl⟩

/-- C4 evaluated at the failing input: `:sync` with an empty argument list
is accepted (the per-element validation passes vacuously and the handler
replies with the success text), and it replaces sendIntervals with the
empty list — breaking the non-empty-intervals invariant that held before
the command. -/
theorem c4_empty_sync_breaks_invariant :
    (handleSync [] (some beginUser)).1 =
      some { beginUser with sendIntervals := [], currentIntervalIndex := 0 } ∧
    (handleSync [] (some beginUser)).2 =
      "Messages will now be sent with intervals:  hours" ∧
    UserInvariant beginUser ∧
    ¬ UserInvariant { beginUser with sendIntervals := [], currentIntervalIndex := 0 } := by
  refine ⟨rfl, rfl, ⟨by decide, by decide, by decide⟩, fun hcon => hcon.1 rfl⟩

/-- C5: when the content fetch or the message send fails for a due,
eligible subscriber, the dispatch step leaves the record exactly as it was
and sends nothing; and the tick maps every entry of the table
independently, so one subscriber's failing environment never changes how
the entries before or after it are processed. -/
theorem c5_failure_isolated (now : Int) (u : User) (e : TickEnv)
    (env : String → TickEnv) (pre post : List (String × User)) (k : String) (v : User)
    (ha : u.active = true) (hex : expired now u = false) (hdue : u.nextSendTime ≤ now)
    (hfail : e.fetch = FetchResult.failure ∨ e.sendOk = false) :
    stepUser now e u = (u, []) ∧
    tickUsers now env (pre ++ (k, v) :: post) =
      tickUsers now env pre ++ (k, (stepUser now (env k) v).1) :: tickUsers now env post := by
  refine ⟨stepUser_fail now e u ha hex hdue hfail, ?_⟩
  simp [tickUsers]

/-- Witness for c5_failure_isolated on a two-subscriber table. -/
theorem c5_failure_isolated_witness :
    stepUser 0 failTick beginUser = (beginUser, []) ∧
    tickUsers 0 (fun _ => failTick) ([("a", beginUser)] ++ ("b", beginUser) :: []) =
      tickUsers 0 (fun _ => failTick) [("a", beginUser)] ++
        ("b", (stepUser 0 ((fun _ => failTick) "b") beginUser).1) ::
          tickUsers 0 (fun _ => failTick) [] :=
  c5_failure_isolated 0 beginUser failTick (fun _ => failTick)
    [("a", beginUser)] [] "b" beginUser rfl rfl (by decide) (Or.inl rfl)

/-- C6 evaluated at the failing input: after `:lessons 1 2` the stored
weights select exactly lessons 1 and 2, but the status query for the
identity does not succeed: the validatePhoneNumber middleware reads
phoneNumber from the request body, which a GET does not carry, so the route
answers 400 Bad Request instead of the active-lessons report. -/
theorem c6_status_query_rejected :
    (handleLessons ["1", "2"] (some beginUser)).1 = some lessonsUser ∧
    (handleLessons ["1", "2"] (some beginUser)).2 =
      "Now sending content from lessons: 1, 2" ∧
    activeLessons lessonsUser.lessonWeights = [1, 2] ∧
    statusRoute none (some lessonsUser) 0 = StatusResp.badRequest ∧
    StatusResp.badRequest ≠
      StatusResp.okStatus lessonsUser.active lessonsUser.messageCount 0 [1, 2] := by
  exact ⟨rfl, rfl, rfl, rfl, by decide⟩

/-- C7 evaluated at the failing input: fetching the payload "ab?" (bytes
97 98 63) produces the URL handle "YWI/", whose slash makes the content URL
a two-segment path; the /content/:html route binds :html to "YWI" (one
trailing slash is tolerated), which decodes to the bytes of "ab" — not
byte-identical to the fetched payload. -/
theorem c7_roundtrip_broken :
    fetchArenaContent onesWeights env7 =
      (FetchResult.success [97, 98, 63] ['Y', 'W', 'I', '/'],
        [arenaUrl ("hoon-academy-0")]) ∧
    resolveContentHandle ['Y', 'W', 'I', '/'] = some [97, 98] ∧
    some [97, 98] ≠ some [97, 98, 63] := by
  exact ⟨rfl, rfl, by decide⟩

/-- C8: in a successful dispatch the slow-down prompt accompanies the send
exactly when the incremented counter equals 100; iterating successful
dispatches from a fresh subscriber, the prompt is sent exactly on the
hundredth dispatch (j = 99, the one that makes messageCount 100) and on no
other, earlier or later. -/
theorem c8_prompt_exactly_once (u v : User) (now : Int) (e : TickEnv)
    (p : List Nat) (h : List Char) (j : Nat)
    (hva : v.active = true) (hvx : expired now v = false) (hvd : v.nextSendTime ≤ now)
    (hef : e.fetch = FetchResult.success p h) (hes : e.sendOk = true)
    (ha : u.active = true) (he : u.endTime = none)
    (hi : u.currentIntervalIndex < u.sendIntervals.length) (hc : u.messageCount = 0) :
    (Msg.prompt ∈ (stepUser now e v).2 ↔ v.messageCount + 1 = 100) ∧
    (Msg.prompt ∈ dispatchMsgs (dispatchAt^[j] u) ↔ j = 99) := by
  have hmem : ∀ (w : User) (nw : Int) (ew : TickEnv) (pw : List Nat) (hw : List Char),
      w.active = true → expired nw w = false → w.nextSendTime ≤ nw →
      ew.fetch = FetchResult.success pw hw → ew.sendOk = true →
      (Msg.prompt ∈ (stepUser nw ew w).2 ↔ w.messageCount + 1 = 100) := by
    intro w nw ew pw hw hwa hwx hwd hwf hws
    rw [stepUser_success nw ew w pw hw hwa hwx hwd hwf hws]
    by_cases hcnt : w.messageCount + 1 = 100
    · simp [hcnt]
    · simp [hcnt]
  obtain ⟨hj1, hj2, hj3, hj4, hj5⟩ := dispatchAt_run u ha he hi j
  refine ⟨hmem v now e p h hva hvx hvd hef hes, ?_⟩
  have hm := hmem (dispatchAt^[j] u) (dispatchAt^[j] u).nextSendTime okEnv [] []
    hj1 (by simp [expired, hj2]) (le_refl _) rfl rfl
  show Msg.prompt ∈
      (stepUser (dispatchAt^[j] u).nextSendTime okEnv (dispatchAt^[j] u)).2 ↔ j = 99
  rw [hm, hj4, hc]
  omega

/-- Witness for c8_prompt_exactly_once: the prompt appears on the hundredth
dispatch and not on the hundred-and-first. -/
theorem c8_prompt_exactly_once_witness :
    ((Msg.prompt ∈ (stepUser 0 okEnv user99).2 ↔ user99.messageCount + 1 = 100) ∧
      (Msg.prompt ∈ dispatchMsgs (dispatchAt^[99] beginUser) ↔ 99 = 99)) ∧
    (Msg.prompt ∈ dispatchMsgs (dispatchAt^[100] beginUser) ↔ 100 = 99) :=
  ⟨c8_prompt_exactly_once beginUser user99 0 okEnv [] [] 99
      rfl rfl (by decide) rfl rfl rfl rfl (by decide) rfl,
    (c8_prompt_exactly_once beginUser user99 0 okEnv [] [] 100
      rfl rfl (by decide) rfl rfl rfl rfl (by decide) rfl).2⟩

/-- C9: a reply whose lowercasing is "yes" or "no" is handled outside the
command grammar: at messageCount ≥ 100, "yes" doubles every interval and
"no" acknowledges without changing state; below the threshold, or for an
identity with no record, both replies produce no reply message at all — in
particular not the unknown-command text. -/
theorem c9_yes_no_replies (now : Int) (myes mno : String) (u v : User)
    (hyes : lowerStr myes = "yes") (hno : lowerStr mno = "no")
    (hcu : 100 ≤ u.messageCount) (hcv : v.messageCount < 100) :
    smsHandler now myes (some u) = Except.ok (some (yesApply u), some reducedText) ∧
    (yesApply u).sendIntervals = (u.sendIntervals.map fun x => x * 2) ∧
    smsHandler now mno (some u) = Except.ok (some u, some continueText) ∧
    smsHandler now myes (some v) = Except.ok (some v, none) ∧
    smsHandler now mno (some v) = Except.ok (some v, none) ∧
    smsHandler now myes none = Except.ok (none, none) ∧
    smsHandler now mno none = Except.ok (none, none) ∧
    reducedText ≠ unknownCmdText ∧ continueText ≠ unknownCmdText ∧
    (none : Option String) ≠ some unknownCmdText := by
  have hnv : ¬ (100 ≤ v.messageCount) := by omega
  have hnoyes : ¬ (lowerStr mno = "yes") := by
    rw [hno]
    decide
  refine ⟨?_, rfl, ?_, ?_, ?_, ?_, ?_, by decide, by decide, by decide⟩
  · simp [smsHandler, hyes, hcu]
  · simp [smsHandler, hno, hnoyes, hcu]
  · simp [smsHandler, hyes, hnv]
  · simp [smsHandler, hno, hnv]
  · simp [smsHandler, hyes]
  · simp [smsHandler, hno]

/-- Witness for c9_yes_no_replies, checking case-insensitivity with "YES"
and "No". -/
theorem c9_yes_no_replies_witness :
    smsHandler 0 ("YES") (some hundredUser) =
        Except.ok (some (yesApply hundredUser), some reducedText) ∧
    (yesApply hundredUser).sendIntervals =
        (hundredUser.sendIntervals.map fun x => x * 2) ∧
    smsHandler 0 ("No") (some hundredUser) =
        Except.ok (some hundredUser, some continueText) ∧
    smsHandler 0 ("YES") (some beginUser) = Except.ok (some beginUser, none) ∧
    smsHandler 0 ("No") (some beginUser) = Except.ok (some beginUser, none) ∧
    smsHandler 0 ("YES") none = Except.ok (none, none) ∧
    smsHandler 0 ("No") none = Except.ok (none, none) ∧
    reducedText ≠ unknownCmdText ∧ continueText ≠ unknownCmdText ∧
    (none : Option String) ≠ some unknownCmdText :=
  c9_yes_no_replies 0 ("YES") ("No") hundredUser beginUser rfl rfl (by decide) (by decide)

/-- C10: the 1-72 hour bound `:sync` enforces is not an invariant of the
stored state: `:slow f` multiplies every interval by (1 + f) and an
at-threshold "yes" reply doubles every interval, with no upper bound —
after B.toNat doublings every interval exceeds the bound B (in the witness,
B is 72 hours in milliseconds). -/
theorem c10_intervals_unbounded (u : User) (p : String) (f : Int) (B : Int)
    (hp : parseIntJS p = some f) (h1 : 1 ≤ f) (h30 : f ≤ 30)
    (hc : 100 ≤ u.messageCount) (hpos : ∀ x ∈ u.sendIntervals, 1 ≤ x) :
    handleSlow [p] (some u) =
        Except.ok
          (some { u with sendIntervals := u.sendIntervals.map fun x => x * (1 + f) },
            "Message intervals have been increased by " ++ toString f ++ "x.") ∧
    smsHandler 0 ("yes") (some u) = Except.ok (some (yesApply u), some reducedText) ∧
    (yesApply u).sendIntervals = (u.sendIntervals.map fun x => x * 2) ∧
    ((yesApply^[B.toNat] u).sendIntervals.all fun x => decide (B < x)) = true := by
  have h0 : 0 ≤ f := by omega
  refine ⟨?_, ?_, rfl, ?_⟩
  · simp [handleSlow, hp, h0, h30]
  · simp [smsHandler, hc, show lowerStr ("yes") = "yes" from rfl]
  · rw [List.all_eq_true]
    intro x hx
    rw [yesApply_iter u B.toNat] at hx
    obtain ⟨y, hy, rfl⟩ := List.mem_map.mp hx
    have hyx := hpos y hy
    have hpow : B < 2 ^ B.toNat := by
      have h1b : (B.toNat : Int) < 2 ^ B.toNat := by exact_mod_cast Nat.lt_two_pow B.toNat
      exact lt_of_le_of_lt (Int.self_le_toNat B) h1b
    have hmul : (2 : Int) ^ B.toNat ≤ y * 2 ^ B.toNat :=
      le_mul_of_one_le_left (by positivity) hyx
    simp only [decide_eq_true_eq]
    exact lt_of_lt_of_le hpow hmul

/-- Witness for c10_intervals_unbounded: `:slow 2` and interval doublings
past the 72-hour (259200000 ms) bound for the default subscriber after 100
sends. -/
theorem c10_intervals_unbounded_witness :
    handleSlow ["2"] (some hundredUser) =
        Except.ok
          (some { hundredUser with
              sendIntervals := hundredUser.sendIntervals.map fun x => x * (1 + 2) },
            "Message intervals have been increased by " ++ toString (2 : Int) ++ "x.") ∧
    smsHandler 0 ("yes") (some hundredUser) =
        Except.ok (some (yesApply hundredUser), some reducedText) ∧
    (yesApply hundredUser).sendIntervals =
        (hundredUser.sendIntervals.map fun x => x * 2) ∧
    ((yesApply^[(259200000 : Int).toNat] hundredUser).sendIntervals.all
        fun x => decide ((259200000 : Int) < x)) = true :=
  c10_intervals_unbounded hundredUser ("2") 2 259200000 rfl (by decide) (by decide)
    (by decide) (by decide)
